import Mathlib

/-!
# Key Vault rule catalog (`internal/scanners/kv/rules.go`)

A shallow embedding of `KeyVaultScanner.GetRules` and of the six `Eval`
closures it builds.

Modelling conventions.

* A Go pointer field (`*string`, `*VaultProperties`, ...) is an `Option`;
  `none` is the nil pointer and dereferencing it is a run-time panic.
* A Go slice is an `Option (List _)`; `none` is the nil slice, whose `len` is 0.
* `target interface{}` is the type `Target`: a non-nil `*armkeyvault.Vault`,
  a nil `*armkeyvault.Vault`, or a value of any other dynamic type.
* An `Eval` call either returns its `(bool, string)` pair, panics, or ends the
  process through `log.Fatalf`; `Outcome` records which.
* `map[string]scanners.AzureRule` is an association list with distinct keys,
  read through `GoMap.lookup`. Go leaves the iteration order of a map
  unspecified, so no statement below depends on the order of the list.
* Go strings are rendered as Lean strings; the only string operation in the
  file, `strings.HasPrefix` against the ASCII literal `"kv"`, agrees on bytes and
  on characters.
-/

namespace Kv

/-! ## The Azure SDK types read by the rules -/

/-- The Go type `armkeyvault.SKU`; `Name` is a `*SKUName`, and `SKUName` is a string type. -/
structure SKU where
  Name : Option String
  deriving DecidableEq, Repr

/-- The Go type `armkeyvault.PrivateEndpointConnectionItem` (the rules read none of its fields). -/
structure PrivateEndpointConnectionItem where
  ID : Option String
  Etag : Option String
  deriving DecidableEq, Repr

/-- The Go type `armkeyvault.VaultProperties`, restricted to the fields the rules read. -/
structure VaultProperties where
  PrivateEndpointConnections : Option (List (Option PrivateEndpointConnectionItem))
  SKU : Option SKU
  deriving DecidableEq, Repr

/-- The Go type `armkeyvault.Vault`, restricted to the fields the rules read plus `Location`. -/
structure Vault where
  ID : Option String
  Name : Option String
  Location : Option String
  Properties : Option VaultProperties
  deriving DecidableEq, Repr

/-- The dynamic value behind `target interface{}`. -/
inductive Target where
  | vault (v : Vault)
  | nilVault
  | other
  deriving DecidableEq, Repr

/-- Why an `Eval` call panicked. -/
inductive PanicKind where
  | typeAssertion
  | nilDereference
  deriving DecidableEq, Repr

/-- How one call of an `Eval` closure ends. -/
inductive Outcome where
  | returned (violated : Bool) (evidence : String)
  | panicked (kind : PanicKind)
  | fatal (message : String)
  deriving DecidableEq, Repr

/-- The result `(bool, error)` of a diagnostics lookup: `ok h` when `err == nil`,
`error e` when the lookup failed with an error whose text is `e`. -/
abbrev LookupResult := Except String Bool

/-- Modelled from the spec: the declaration of `scanners.ScanContext` is not part of the
sources at hand; the spec says it holds the diagnostics cache and exposes
`HasDiagnostics(resourceId) -> (bool, error)`. -/
structure ScanContext where
  HasDiagnostics : String → LookupResult

/-- The receiver of `GetRules`. Its `diagnosticsSettings` field is known only through the
call `a.diagnosticsSettings.HasDiagnostics(id)`, so the field is the lookup itself. -/
structure KeyVaultScanner where
  diagnosticsSettings : String → LookupResult

/-- The Go type `scanners.AzureRule`, with the seven fields set in `GetRules`. -/
structure AzureRule where
  Id : String
  Category : String
  Subcategory : String
  Description : String
  Severity : String
  Eval : Target → Option ScanContext → Outcome
  Url : String

/-! ## Library functions -/

/-- The Go function `strconv.FormatBool`. -/
def FormatBool (b : Bool) : String :=
  if b then "true" else "false"

/-- The Go function `strings.HasPrefix`:
`len(s) >= len(prefix) && s[:len(prefix)] == prefix`. -/
def HasPrefix (s pre : String) : Bool :=
  decide (s.data.length ≥ pre.data.length) && (s.data.take pre.data.length == pre.data)

/-- The Go builtin `len` on a slice. -/
def len {α : Type} (s : Option (List α)) : Nat :=
  match s with
  | none => 0
  | some xs => xs.length

/-- The text `log.Fatalf` prints for
`"Error checking diagnostic settings for service %s: %s"`. -/
def fatalMessage (name err : String) : String :=
  "Error checking diagnostic settings for service " ++ name ++ ": " ++ err

/-- The type assertion `target.(*armkeyvault.Vault)`: the pointer behind the interface,
or a panic when the dynamic type is another one. -/
def assertVault (target : Target) : Except PanicKind (Option Vault) :=
  match target with
  | Target.vault v => Except.ok (some v)
  | Target.nilVault => Except.ok none
  | Target.other => Except.error PanicKind.typeAssertion

/-! ## The six `Eval` closures -/

/-- The `Eval` closure of the rule `"DiagnosticSettings"` for the scanner `a`. -/
def evalDiagnosticSettings (a : KeyVaultScanner) (target : Target)
    (_scanContext : Option ScanContext) : Outcome :=
  match assertVault target with
  | Except.error k => Outcome.panicked k
  | Except.ok none => Outcome.panicked PanicKind.nilDereference
  | Except.ok (some service) =>
    match service.ID with
    | none => Outcome.panicked PanicKind.nilDereference
    | some id =>
      match a.diagnosticsSettings id with
      | Except.error err =>
        match service.Name with
        | none => Outcome.panicked PanicKind.nilDereference
        | some name => Outcome.fatal (fatalMessage name err)
      | Except.ok hasDiagnostics =>
        Outcome.returned (!hasDiagnostics) (FormatBool hasDiagnostics)

/-- The `Eval` closure of the rule `"AvailabilityZones"`. -/
def evalAvailabilityZones (_target : Target) (_scanContext : Option ScanContext) : Outcome :=
  Outcome.returned false (FormatBool true)

/-- The `Eval` closure of the rule `"SLA"`. -/
def evalSLA (_target : Target) (_scanContext : Option ScanContext) : Outcome :=
  Outcome.returned false "99.99%"

/-- The `Eval` closure of the rule `"Private"`. -/
def evalPrivate (target : Target) (_scanContext : Option ScanContext) : Outcome :=
  match assertVault target with
  | Except.error k => Outcome.panicked k
  | Except.ok none => Outcome.panicked PanicKind.nilDereference
  | Except.ok (some i) =>
    match i.Properties with
    | none => Outcome.panicked PanicKind.nilDereference
    | some props =>
      let pe := decide (len props.PrivateEndpointConnections > 0)
      Outcome.returned (!pe) (FormatBool pe)

/-- The `Eval` closure of the rule `"SKU"`. -/
def evalSKU (target : Target) (_scanContext : Option ScanContext) : Outcome :=
  match assertVault target with
  | Except.error k => Outcome.panicked k
  | Except.ok none => Outcome.panicked PanicKind.nilDereference
  | Except.ok (some i) =>
    match i.Properties with
    | none => Outcome.panicked PanicKind.nilDereference
    | some props =>
      match props.SKU with
      | none => Outcome.panicked PanicKind.nilDereference
      | some sku =>
        match sku.Name with
        | none => Outcome.panicked PanicKind.nilDereference
        | some name => Outcome.returned false name

/-- The `Eval` closure of the rule `"CAF"`. -/
def evalCAF (target : Target) (_scanContext : Option ScanContext) : Outcome :=
  match assertVault target with
  | Except.error k => Outcome.panicked k
  | Except.ok none => Outcome.panicked PanicKind.nilDereference
  | Except.ok (some c) =>
    match c.Name with
    | none => Outcome.panicked PanicKind.nilDereference
    | some name =>
      let caf := HasPrefix name "kv"
      Outcome.returned (!caf) (FormatBool caf)

/-! ## The catalog -/

/-- A Go `map[string]V` as an association list. -/
abbrev GoMap (V : Type) := List (String × V)

/-- The Go expression `m[k]` in its two-result form: the value and whether the key is present. -/
def GoMap.lookup {V : Type} (m : GoMap V) (k : String) : Option V :=
  match m with
  | [] => none
  | (k', v) :: rest => if k' = k then some v else GoMap.lookup rest k

/-- The keys of a Go map. -/
def GoMap.keys {V : Type} (m : GoMap V) : List String :=
  m.map Prod.fst

/-- The method `(*KeyVaultScanner).GetRules`. -/
def GetRules (a : KeyVaultScanner) : GoMap AzureRule :=
  [ ("DiagnosticSettings",
      { Id := "kv-001"
        Category := "Monitoring and Logging"
        Subcategory := "Diagnostic Logs"
        Description := "Key Vault should have diagnostic settings enabled"
        Severity := "Medium"
        Eval := evalDiagnosticSettings a
        Url := "https://learn.microsoft.com/en-us/azure/key-vault/general/monitor-key-vault" }),
    ("AvailabilityZones",
      { Id := "kv-002"
        Category := "High Availability and Resiliency"
        Subcategory := "Availability Zones"
        Description := "Key Vault should have availability zones enabled"
        Severity := "High"
        Eval := evalAvailabilityZones
        Url := "https://learn.microsoft.com/en-us/azure/key-vault/general/disaster-recovery-guidance" }),
    ("SLA",
      { Id := "kv-003"
        Category := "High Availability and Resiliency"
        Subcategory := "SLA"
        Description := "Key Vault should have a SLA"
        Severity := "High"
        Eval := evalSLA
        Url := "https://www.azure.cn/en-us/support/sla/key-vault/" }),
    ("Private",
      { Id := "kv-004"
        Category := "Security"
        Subcategory := "Networking"
        Description := "Key Vault should have private endpoints enabled"
        Severity := "High"
        Eval := evalPrivate
        Url := "https://learn.microsoft.com/en-us/azure/key-vault/general/private-link-service" }),
    ("SKU",
      { Id := "kv-005"
        Category := "High Availability and Resiliency"
        Subcategory := "SKU"
        Description := "Key Vault SKU"
        Severity := "High"
        Eval := evalSKU
        Url := "https://azure.microsoft.com/en-us/pricing/details/key-vault/" }),
    ("CAF",
      { Id := "kv-006"
        Category := "Governance"
        Subcategory := "Naming Convention (CAF)"
        Description := "Key Vault Name should comply with naming conventions"
        Severity := "Low"
        Eval := evalCAF
        Url := "https://learn.microsoft.com/en-us/azure/cloud-adoption-framework/ready/azure-best-practices/resource-abbreviations" }) ]

/-- The metadata fields of a rule, that is every field but `Eval`. -/
structure RuleMeta where
  Id : String
  Category : String
  Subcategory : String
  Description : String
  Severity : String
  Url : String
  deriving DecidableEq, Repr

/-- The metadata of a rule. -/
def AzureRule.meta (r : AzureRule) : RuleMeta :=
  { Id := r.Id, Category := r.Category, Subcategory := r.Subcategory,
    Description := r.Description, Severity := r.Severity, Url := r.Url }

/-- Evaluate the rule registered under `name` in the catalog of scanner `a`;
`none` when the catalog has no such rule. -/
def evalRule (a : KeyVaultScanner) (name : String) (target : Target)
    (scanContext : Option ScanContext) : Option Outcome :=
  ((GetRules a).lookup name).map (fun r => r.Eval target scanContext)

/-! ## Sample inputs -/

/-- A scanner whose diagnostics lookup finds no diagnostic setting on any resource. -/
def noDiagnosticsScanner : KeyVaultScanner :=
  { diagnosticsSettings := fun _ => Except.ok false }

/-- A scanner whose diagnostics lookup fails on every resource. -/
def failingScanner : KeyVaultScanner :=
  { diagnosticsSettings := fun _ => Except.error "throttled" }

/-- A scan context whose own lookup reports diagnostics on every resource. -/
def allDiagnosticsContext : ScanContext :=
  { HasDiagnostics := fun _ => Except.ok true }

/-- A fully populated vault named `kv-prod-01` with one private-endpoint connection. -/
def prodVault : Vault :=
  { ID := some "/subscriptions/s/resourceGroups/rg/providers/Microsoft.KeyVault/vaults/kv-prod-01"
    Name := some "kv-prod-01"
    Location := some "westeurope"
    Properties := some
      { PrivateEndpointConnections := some [some { ID := some "pe-1", Etag := none }]
        SKU := some { Name := some "standard" } } }

/-- A scanner whose lookup knows the vault `prodVault` only and fails elsewhere. -/
def prodOnlyScanner : KeyVaultScanner :=
  { diagnosticsSettings := fun id =>
      if some id = prodVault.ID then Except.ok false else Except.error "not found" }

/-- A vault value none of whose pointer fields is set. -/
def bareVault : Vault :=
  { ID := none, Name := none, Location := none, Properties := none }

end Kv

namespace Kv

/-! ## Auxiliary facts -/

/-- The function `strings.HasPrefix` against `"kv"` holds exactly of the strings whose
first two characters are `k` and `v`. -/
theorem HasPrefix_kv_iff (s : String) :
    HasPrefix s "kv" = true ↔ ∃ rest : List Char, s.data = 'k' :: 'v' :: rest := by
  obtain ⟨cs⟩ := s
  rcases cs with _ | ⟨c, _ | ⟨d, rest⟩⟩
  · simp [HasPrefix]
  · simp [HasPrefix]
  · simp [HasPrefix]

/-- Evaluating a rule by name, spelled out key by key. -/
theorem evalRule_eq (a : KeyVaultScanner) (k : String) (t : Target) (c : Option ScanContext) :
    evalRule a k t c =
      if "DiagnosticSettings" = k then some (evalDiagnosticSettings a t c)
      else if "AvailabilityZones" = k then some (evalAvailabilityZones t c)
      else if "SLA" = k then some (evalSLA t c)
      else if "Private" = k then some (evalPrivate t c)
      else if "SKU" = k then some (evalSKU t c)
      else if "CAF" = k then some (evalCAF t c)
      else none := by
  simp only [evalRule, GetRules, GoMap.lookup]
  split_ifs <;> rfl

theorem evalRule_DiagnosticSettings (a : KeyVaultScanner) (t : Target) (c : Option ScanContext) :
    evalRule a "DiagnosticSettings" t c = some (evalDiagnosticSettings a t c) := rfl

theorem evalRule_AvailabilityZones (a : KeyVaultScanner) (t : Target) (c : Option ScanContext) :
    evalRule a "AvailabilityZones" t c = some (evalAvailabilityZones t c) := rfl

theorem evalRule_SLA (a : KeyVaultScanner) (t : Target) (c : Option ScanContext) :
    evalRule a "SLA" t c = some (evalSLA t c) := rfl

theorem evalRule_Private (a : KeyVaultScanner) (t : Target) (c : Option ScanContext) :
    evalRule a "Private" t c = some (evalPrivate t c) := rfl

theorem evalRule_SKU (a : KeyVaultScanner) (t : Target) (c : Option ScanContext) :
    evalRule a "SKU" t c = some (evalSKU t c) := rfl

theorem evalRule_CAF (a : KeyVaultScanner) (t : Target) (c : Option ScanContext) :
    evalRule a "CAF" t c = some (evalCAF t c) := rfl

/-- Every entry of the catalog, spelled out by key. -/
theorem GetRules_lookup_cases (a : KeyVaultScanner) (k : String) (r : AzureRule)
    (h : (GetRules a).lookup k = some r) :
    (k = "DiagnosticSettings" ∧ r.Id = "kv-001" ∧ r.Severity = "Medium") ∨
    (k = "AvailabilityZones" ∧ r.Id = "kv-002" ∧ r.Severity = "High") ∨
    (k = "SLA" ∧ r.Id = "kv-003" ∧ r.Severity = "High") ∨
    (k = "Private" ∧ r.Id = "kv-004" ∧ r.Severity = "High") ∨
    (k = "SKU" ∧ r.Id = "kv-005" ∧ r.Severity = "High") ∨
    (k = "CAF" ∧ r.Id = "kv-006" ∧ r.Severity = "Low") := by
  simp only [GetRules, GoMap.lookup] at h
  split_ifs at h with h1 h2 h3 h4 h5 h6 <;> cases h <;> simp_all

/-! ## The catalog and its identifiers -/

/-- C1: in the catalog returned by `GetRules`, two different rule names carry two
different `Id` values. -/
theorem GetRules_ids_pairwise_distinct (a : KeyVaultScanner) (n1 n2 : String)
    (r1 r2 : AzureRule) (h1 : (GetRules a).lookup n1 = some r1)
    (h2 : (GetRules a).lookup n2 = some r2) (hne : n1 ≠ n2) : r1.Id ≠ r2.Id := by
  rcases GetRules_lookup_cases a n1 r1 h1 with
    ⟨e1, i1, -⟩ | ⟨e1, i1, -⟩ | ⟨e1, i1, -⟩ | ⟨e1, i1, -⟩ | ⟨e1, i1, -⟩ | ⟨e1, i1, -⟩ <;>
  rcases GetRules_lookup_cases a n2 r2 h2 with
    ⟨e2, i2, -⟩ | ⟨e2, i2, -⟩ | ⟨e2, i2, -⟩ | ⟨e2, i2, -⟩ | ⟨e2, i2, -⟩ | ⟨e2, i2, -⟩ <;>
  first
    | (exfalso; exact hne (e1.trans e2.symm))
    | (rw [i1, i2]; decide)

/-- The rules `"Private"` and `"CAF"` of one catalog have different identifiers. -/
theorem GetRules_ids_pairwise_distinct_witness :
    ∃ r1 r2 : AzureRule,
      (GetRules noDiagnosticsScanner).lookup "Private" = some r1 ∧
      (GetRules noDiagnosticsScanner).lookup "CAF" = some r2 ∧
      "Private" ≠ "CAF" ∧ r1.Id ≠ r2.Id :=
  ⟨_, _, rfl, rfl, by decide,
    GetRules_ids_pairwise_distinct noDiagnosticsScanner "Private" "CAF" _ _ rfl rfl (by decide)⟩

/-! ## Single rules -/

/-- C2: for a vault with an ID whose diagnostics lookup succeeds with `h`, the rule
`"DiagnosticSettings"` (kv-001) returns `violated = not h` with the text of `h` as
evidence; so `h = true` gives `(false, "true")` and `h = false` gives `(true, "false")`. -/
theorem DiagnosticSettings_eval_of_lookup (a : KeyVaultScanner) (v : Vault) (id : String)
    (h : Bool) (ctx : Option ScanContext) (hid : v.ID = some id)
    (hl : a.diagnosticsSettings id = Except.ok h) :
    ((GetRules a).lookup "DiagnosticSettings").map AzureRule.Id = some "kv-001" ∧
    evalRule a "DiagnosticSettings" (Target.vault v) ctx
      = some (Outcome.returned (!h) (if h then "true" else "false")) ∧
    (h = false → evalRule a "DiagnosticSettings" (Target.vault v) ctx
      = some (Outcome.returned true "false")) := by
  have key : evalRule a "DiagnosticSettings" (Target.vault v) ctx
      = some (Outcome.returned (!h) (if h then "true" else "false")) := by
    rw [evalRule_DiagnosticSettings]
    simp only [evalDiagnosticSettings, assertVault, hid, hl, FormatBool]
  refine ⟨rfl, key, ?_⟩
  intro hf
  rw [key, hf]
  rfl

/-- Scenario A: the fully populated sample vault under a lookup that finds no diagnostic
setting is reported as `(true, "false")`. -/
theorem DiagnosticSettings_eval_of_lookup_witness :
    prodVault.ID = some "/subscriptions/s/resourceGroups/rg/providers/Microsoft.KeyVault/vaults/kv-prod-01" ∧
    noDiagnosticsScanner.diagnosticsSettings
      "/subscriptions/s/resourceGroups/rg/providers/Microsoft.KeyVault/vaults/kv-prod-01"
        = Except.ok false ∧
    evalRule noDiagnosticsScanner "DiagnosticSettings" (Target.vault prodVault) none
      = some (Outcome.returned true "false") :=
  ⟨rfl, rfl,
    (DiagnosticSettings_eval_of_lookup noDiagnosticsScanner prodVault _ false none rfl rfl).2.2 rfl⟩

/-- C3: for a vault whose `Properties` are present, the rule `"Private"` (kv-004) returns
`(false, "true")` exactly when the list of private-endpoint connections has at least one
element, and `(true, "false")` exactly when that list is empty or absent. -/
theorem Private_eval_iff (a : KeyVaultScanner) (v : Vault) (p : VaultProperties)
    (ctx : Option ScanContext) (hp : v.Properties = some p) :
    ((GetRules a).lookup "Private").map AzureRule.Id = some "kv-004" ∧
    (evalRule a "Private" (Target.vault v) ctx = some (Outcome.returned false "true") ↔
      ∃ c rest, p.PrivateEndpointConnections = some (c :: rest)) ∧
    (evalRule a "Private" (Target.vault v) ctx = some (Outcome.returned true "false") ↔
      (p.PrivateEndpointConnections = none ∨ p.PrivateEndpointConnections = some [])) := by
  refine ⟨rfl, ?_, ?_⟩
  · rw [evalRule_Private]
    simp only [evalPrivate, assertVault, hp]
    rcases hc : p.PrivateEndpointConnections with _ | (_ | ⟨c, rest⟩) <;>
      simp [len, FormatBool]
  · rw [evalRule_Private]
    simp only [evalPrivate, assertVault, hp]
    rcases hc : p.PrivateEndpointConnections with _ | (_ | ⟨c, rest⟩) <;>
      simp [len, FormatBool]

/-- Scenario B: the sample vault has one private-endpoint connection and passes the rule. -/
theorem Private_eval_iff_witness :
    prodVault.Properties = some
      { PrivateEndpointConnections := some [some { ID := some "pe-1", Etag := none }]
        SKU := some { Name := some "standard" } } ∧
    evalRule noDiagnosticsScanner "Private" (Target.vault prodVault) none
      = some (Outcome.returned false "true") :=
  ⟨rfl, (Private_eval_iff noDiagnosticsScanner prodVault _ none rfl).2.1.mpr ⟨_, _, rfl⟩⟩

/-- C4: for a vault with a name, the rule `"CAF"` (kv-006) returns `(false, "true")` if and
only if the name starts with the two characters `k`, `v` in that case, and `(true, "false")`
otherwise; `kv-prod-01` passes, while `KV-prod-01`, `Kv1`, `k` and the empty name are
violations. -/
theorem CAF_eval_iff (a : KeyVaultScanner) (v : Vault) (n : String)
    (ctx : Option ScanContext) (hn : v.Name = some n) :
    ((GetRules a).lookup "CAF").map AzureRule.Id = some "kv-006" ∧
    (evalRule a "CAF" (Target.vault v) ctx = some (Outcome.returned false "true") ↔
      ∃ rest : List Char, n.data = 'k' :: 'v' :: rest) ∧
    ((¬ ∃ rest : List Char, n.data = 'k' :: 'v' :: rest) →
      evalRule a "CAF" (Target.vault v) ctx = some (Outcome.returned true "false")) ∧
    evalRule a "CAF" (Target.vault { v with Name := some "kv-prod-01" }) ctx
      = some (Outcome.returned false "true") ∧
    evalRule a "CAF" (Target.vault { v with Name := some "KV-prod-01" }) ctx
      = some (Outcome.returned true "false") ∧
    evalRule a "CAF" (Target.vault { v with Name := some "Kv1" }) ctx
      = some (Outcome.returned true "false") ∧
    evalRule a "CAF" (Target.vault { v with Name := some "k" }) ctx
      = some (Outcome.returned true "false") ∧
    evalRule a "CAF" (Target.vault { v with Name := some "" }) ctx
      = some (Outcome.returned true "false") := by
  have key : evalRule a "CAF" (Target.vault v) ctx
      = some (Outcome.returned (!HasPrefix n "kv") (FormatBool (HasPrefix n "kv"))) := by
    rw [evalRule_CAF]
    simp only [evalCAF, assertVault, hn]
  refine ⟨rfl, ?_, ?_, rfl, rfl, rfl, rfl, rfl⟩
  · rw [key, ← HasPrefix_kv_iff]
    cases HasPrefix n "kv" <;> simp [FormatBool]
  · intro hno
    rw [← HasPrefix_kv_iff] at hno
    rw [key]
    cases hb : HasPrefix n "kv"
    · rfl
    · exact absurd hb hno

/-- Scenario C: the sample vault is named `kv-prod-01` and passes the naming rule. -/
theorem CAF_eval_iff_witness :
    prodVault.Name = some "kv-prod-01" ∧
    evalRule noDiagnosticsScanner "CAF" (Target.vault prodVault) none
      = some (Outcome.returned false "true") :=
  ⟨rfl, (CAF_eval_iff noDiagnosticsScanner prodVault "kv-prod-01" none rfl).2.1.mpr
    ⟨_, rfl⟩⟩

/-- C5: the rule `"AvailabilityZones"` (kv-002) returns `(false, "true")` and the rule
`"SLA"` (kv-003) returns `(false, "99.99%")` for every scanner, every target and every scan
context. -/
theorem constant_rules_eval (a : KeyVaultScanner) (t : Target) (ctx : Option ScanContext) :
    ((GetRules a).lookup "AvailabilityZones").map AzureRule.Id = some "kv-002" ∧
    ((GetRules a).lookup "SLA").map AzureRule.Id = some "kv-003" ∧
    evalRule a "AvailabilityZones" t ctx = some (Outcome.returned false "true") ∧
    evalRule a "SLA" t ctx = some (Outcome.returned false "99.99%") :=
  ⟨rfl, rfl, rfl, rfl⟩

/-! ## Missing fields and failing lookups -/

/-- C6, as stated, fails: on a vault none of whose pointer fields is set, the rule `"SKU"`
dereferences the nil `Properties` pointer and panics, so it returns no pair. -/
theorem SKU_eval_bareVault_panics :
    evalRule noDiagnosticsScanner "SKU" (Target.vault bareVault) none
      = some (Outcome.panicked PanicKind.nilDereference) ∧
    ¬ ∃ b e, evalRule noDiagnosticsScanner "SKU" (Target.vault bareVault) none
      = some (Outcome.returned b e) := by
  refine ⟨rfl, ?_⟩
  rintro ⟨b, e, h⟩
  have h2 : evalRule noDiagnosticsScanner "SKU" (Target.vault bareVault) none
      = some (Outcome.panicked PanicKind.nilDereference) := rfl
  rw [h2] at h
  cases h

/-- C6, amended: on every vault, each rule of the catalog returns a pair exactly when the
pointer fields that rule dereferences are present: kv-001 needs `ID` and a successful
lookup, kv-004 needs `Properties`, kv-005 needs `Properties`, `Properties.SKU` and
`Properties.SKU.Name`, kv-006 needs `Name`, and kv-002 and kv-003 need nothing. -/
theorem eval_returns_iff_fields_present (a : KeyVaultScanner) (v : Vault)
    (ctx : Option ScanContext) :
    ((∃ b e, evalRule a "DiagnosticSettings" (Target.vault v) ctx
        = some (Outcome.returned b e)) ↔
      ∃ id h, v.ID = some id ∧ a.diagnosticsSettings id = Except.ok h) ∧
    (∃ b e, evalRule a "AvailabilityZones" (Target.vault v) ctx
        = some (Outcome.returned b e)) ∧
    (∃ b e, evalRule a "SLA" (Target.vault v) ctx = some (Outcome.returned b e)) ∧
    ((∃ b e, evalRule a "Private" (Target.vault v) ctx = some (Outcome.returned b e)) ↔
      ∃ p, v.Properties = some p) ∧
    ((∃ b e, evalRule a "SKU" (Target.vault v) ctx = some (Outcome.returned b e)) ↔
      ∃ p s n, v.Properties = some p ∧ p.SKU = some s ∧ s.Name = some n) ∧
    ((∃ b e, evalRule a "CAF" (Target.vault v) ctx = some (Outcome.returned b e)) ↔
      ∃ n, v.Name = some n) := by
  refine ⟨?_, ⟨_, _, rfl⟩, ⟨_, _, rfl⟩, ?_, ?_, ?_⟩
  · rw [evalRule_DiagnosticSettings]
    rcases hid : v.ID with _ | id
    · simp [evalDiagnosticSettings, assertVault, hid]
    · rcases hl : a.diagnosticsSettings id with err | h
      · rcases hn : v.Name with _ | name <;>
          simp [evalDiagnosticSettings, assertVault, hid, hl, hn]
      · simp [evalDiagnosticSettings, assertVault, hid, hl]
  · rw [evalRule_Private]
    rcases hp : v.Properties with _ | p
    · simp [evalPrivate, assertVault, hp]
    · simp only [evalPrivate, assertVault, hp]
      exact ⟨fun _ => ⟨p, rfl⟩, fun _ => ⟨_, _, rfl⟩⟩
  · rw [evalRule_SKU]
    rcases hp : v.Properties with _ | p
    · simp [evalSKU, assertVault, hp]
    · rcases hs : p.SKU with _ | s
      · simp [evalSKU, assertVault, hp, hs]
      · rcases hn : s.Name with _ | n <;> simp [evalSKU, assertVault, hp, hs, hn]
  · rw [evalRule_CAF]
    rcases hn : v.Name with _ | n
    · simp [evalCAF, assertVault, hn]
    · simp only [evalCAF, assertVault, hn]
      exact ⟨fun _ => ⟨n, rfl⟩, fun _ => ⟨_, _, rfl⟩⟩

/-- C7: for a vault with an ID and a name, a diagnostics lookup that fails with an error
makes the rule `"DiagnosticSettings"` (kv-001) end the process through `log.Fatalf`
without returning a pair; the rule returns a pair if and only if the lookup succeeds. -/
theorem DiagnosticSettings_eval_fatal (a : KeyVaultScanner) (v : Vault) (id name : String)
    (ctx : Option ScanContext) (hid : v.ID = some id) (hname : v.Name = some name) :
    (∀ err, a.diagnosticsSettings id = Except.error err →
      evalRule a "DiagnosticSettings" (Target.vault v) ctx
        = some (Outcome.fatal
            ("Error checking diagnostic settings for service " ++ name ++ ": " ++ err)) ∧
      ¬ ∃ b e, evalRule a "DiagnosticSettings" (Target.vault v) ctx
        = some (Outcome.returned b e)) ∧
    ((∃ b e, evalRule a "DiagnosticSettings" (Target.vault v) ctx
        = some (Outcome.returned b e)) ↔
      ∃ h, a.diagnosticsSettings id = Except.ok h) := by
  rw [evalRule_DiagnosticSettings]
  simp only [evalDiagnosticSettings, assertVault, hid, hname]
  rcases hl : a.diagnosticsSettings id with err | h
  · simp [fatalMessage]
  · simp

/-- A failed lookup on the sample vault ends the process with the formatted message. -/
theorem DiagnosticSettings_eval_fatal_witness :
    prodVault.ID = some "/subscriptions/s/resourceGroups/rg/providers/Microsoft.KeyVault/vaults/kv-prod-01" ∧
    prodVault.Name = some "kv-prod-01" ∧
    evalRule failingScanner "DiagnosticSettings" (Target.vault prodVault) none
      = some (Outcome.fatal
          "Error checking diagnostic settings for service kv-prod-01: throttled") :=
  ⟨rfl, rfl,
    ((DiagnosticSettings_eval_fatal failingScanner prodVault _ "kv-prod-01" none rfl rfl).1
      "throttled" rfl).1⟩

/-! ## Determinism and independence from the scan context -/

/-- C8: rule evaluation is deterministic. The outcome of a rule is fixed by the rule name,
the vault, and the answer of the diagnostics lookup for that vault: two evaluations on the
same vault and scan context, whose lookups answer alike on the ID of the vault, end the
same way, with the same `(violated, evidence)` pair. -/
theorem eval_deterministic (a1 a2 : KeyVaultScanner) (k : String) (v : Vault)
    (ctx : Option ScanContext)
    (hl : ∀ id, v.ID = some id → a1.diagnosticsSettings id = a2.diagnosticsSettings id) :
    evalRule a1 k (Target.vault v) ctx = evalRule a2 k (Target.vault v) ctx := by
  rw [evalRule_eq, evalRule_eq]
  have hd : evalDiagnosticSettings a1 (Target.vault v) ctx
      = evalDiagnosticSettings a2 (Target.vault v) ctx := by
    simp only [evalDiagnosticSettings, assertVault]
    rcases hid : v.ID with _ | id
    · rfl
    · simp only [hl id hid]
  rw [hd]

/-- Two scanners that agree on the sample vault and differ elsewhere evaluate the
diagnostics rule on it alike. -/
theorem eval_deterministic_witness :
    (∀ id, prodVault.ID = some id →
      noDiagnosticsScanner.diagnosticsSettings id = prodOnlyScanner.diagnosticsSettings id) ∧
    noDiagnosticsScanner.diagnosticsSettings "x" ≠ prodOnlyScanner.diagnosticsSettings "x" ∧
    evalRule noDiagnosticsScanner "DiagnosticSettings" (Target.vault prodVault) none
      = evalRule prodOnlyScanner "DiagnosticSettings" (Target.vault prodVault) none :=
  ⟨fun id hid => by simp [noDiagnosticsScanner, prodOnlyScanner, hid],
    by simp [noDiagnosticsScanner, prodOnlyScanner, prodVault],
    eval_deterministic noDiagnosticsScanner prodOnlyScanner "DiagnosticSettings" prodVault none
      (fun id hid => by simp [noDiagnosticsScanner, prodOnlyScanner, hid])⟩

/-- C9: `GetRules` returns the same catalog on every call: six rules under six distinct
keys `DiagnosticSettings`, `AvailabilityZones`, `SLA`, `Private`, `SKU`, `CAF`, with ids
kv-001 to kv-006 in that correspondence, each with severity `Low`, `Medium` or `High`; and
two calls agree on the keys and on the six metadata fields of every rule. -/
theorem GetRules_catalog (a a2 : KeyVaultScanner) :
    (GetRules a).length = 6 ∧ (GetRules a).keys.Nodup ∧
    (∀ k, ((GetRules a).lookup k).isSome = true ↔
      k ∈ ["DiagnosticSettings", "AvailabilityZones", "SLA", "Private", "SKU", "CAF"]) ∧
    ((GetRules a).lookup "DiagnosticSettings").map AzureRule.Id = some "kv-001" ∧
    ((GetRules a).lookup "AvailabilityZones").map AzureRule.Id = some "kv-002" ∧
    ((GetRules a).lookup "SLA").map AzureRule.Id = some "kv-003" ∧
    ((GetRules a).lookup "Private").map AzureRule.Id = some "kv-004" ∧
    ((GetRules a).lookup "SKU").map AzureRule.Id = some "kv-005" ∧
    ((GetRules a).lookup "CAF").map AzureRule.Id = some "kv-006" ∧
    (∀ k r, (GetRules a).lookup k = some r → r.Severity ∈ ["Low", "Medium", "High"]) ∧
    (∀ k, ((GetRules a).lookup k).map AzureRule.meta
      = ((GetRules a2).lookup k).map AzureRule.meta) := by
  refine ⟨rfl, by simp [GoMap.keys, GetRules], ?_, rfl, rfl, rfl, rfl, rfl, rfl, ?_, ?_⟩
  · intro k
    simp only [GetRules, GoMap.lookup]
    split_ifs with h1 h2 h3 h4 h5 h6 <;> simp_all [eq_comm]
  · intro k r h
    rcases GetRules_lookup_cases a k r h with
      ⟨-, -, s⟩ | ⟨-, -, s⟩ | ⟨-, -, s⟩ | ⟨-, -, s⟩ | ⟨-, -, s⟩ | ⟨-, -, s⟩ <;>
    simp [s]
  · intro k
    simp only [GetRules, GoMap.lookup]
    split_ifs <;> rfl

/-- C10: no rule of the catalog reads the scan context: any two contexts, a nil one
included, give the same outcome; the diagnostics rule answers from the lookup of the
scanner, whatever the lookup carried by the context says. -/
theorem eval_ignores_scanContext (a : KeyVaultScanner) (k : String) (t : Target)
    (c1 c2 : Option ScanContext) :
    evalRule a k t c1 = evalRule a k t c2 ∧
    evalRule a k t c1 = evalRule a k t none ∧
    (∀ (v : Vault) (id : String) (h : Bool) (c : ScanContext),
      v.ID = some id → a.diagnosticsSettings id = Except.ok h →
      evalRule a "DiagnosticSettings" (Target.vault v) (some c)
        = some (Outcome.returned (!h) (FormatBool h))) := by
  have key : ∀ c c' : Option ScanContext, evalRule a k t c = evalRule a k t c' := by
    intro c c'
    rw [evalRule_eq, evalRule_eq]
    rfl
  refine ⟨key c1 c2, key c1 none, ?_⟩
  intro v id h c hid hl
  rw [evalRule_DiagnosticSettings]
  simp only [evalDiagnosticSettings, assertVault, hid, hl]

/-- A context whose own lookup reports diagnostics does not change the verdict of a scanner
whose lookup reports none. -/
theorem eval_ignores_scanContext_witness :
    allDiagnosticsContext.HasDiagnostics
      "/subscriptions/s/resourceGroups/rg/providers/Microsoft.KeyVault/vaults/kv-prod-01"
        = Except.ok true ∧
    evalRule noDiagnosticsScanner "DiagnosticSettings" (Target.vault prodVault)
      (some allDiagnosticsContext) = some (Outcome.returned true "false") :=
  ⟨rfl,
    (eval_ignores_scanContext noDiagnosticsScanner "DiagnosticSettings"
      (Target.vault prodVault) none none).2.2 prodVault _ false allDiagnosticsContext rfl rfl⟩

end Kv
